import Mathlib

/-!
Verification development for the client-side request-lifecycle and
state-orchestration layer of a question-answering frontend.

The definitions below are a shallow embedding of the TypeScript source:

* `Storage` (src/unnamed/part_007): a typed view of the persistent
  key-value store with its six keys (`STORAGE_KEYS`).
* `chatReducer` / `sendMessage` / `addFile` / `addWebSource` /
  `updatePreferences` (src/unnamed/part_024, the `ChatContext` provider).
* `sessionReducer` / `createSession` / `clearSession` and the periodic
  expiry check (src/notebook-lm-frontend/src/contexts/SessionContext.tsx).
* `logout` (src/notebook-lm-frontend/src/contexts/AuthContext.tsx).
* The axios response-error interceptor, `refreshToken`, `ApiClient.get`
  and `ApiClient.post` (src/notebook-lm-frontend/src/services/api.ts).

Network traffic is scripted: each world carries a list of pending
`NetOutcome`s consumed in order, and a `netLog` of the endpoints hit.
Asynchronous backend results that a flow awaits are passed to the flow as
an explicit `Except` argument; timestamps (`Date.now()`) are passed as
explicit `Nat` clock values.
-/

namespace Intellisense

/-- `user` / `assistant` roles of `Message` (chat.types). -/
inductive Role where
  | user
  | assistant
deriving DecidableEq, Repr

/-- Assistant-message metadata (chat.types `Message.metadata`); the
retrieval trace is carried as an opaque string payload. -/
structure MessageMeta where
  confidence : Rat
  warnings : List String
  citations : List String
  used_chunk_ids : List String
  retrieval_trace : String
  trace_id : String
  latency_ms : Nat
deriving DecidableEq, Repr

/-- `Message` of chat.types. -/
structure Message where
  id : String
  role : Role
  content : String
  timestamp : Nat
  metadata : Option MessageMeta
deriving DecidableEq, Repr

/-- `response_style` values of `ChatPreferences` (chat.types). -/
inductive ResponseStyle where
  | concise
  | detailed
  | simple
  | exam
deriving DecidableEq, Repr

/-- `ChatPreferences` of chat.types; `model_name` is optional there. -/
structure ChatPreferences where
  response_style : ResponseStyle
  max_length : Nat
  domain : String
  model_name : Option String
  allow_agentic : Bool
deriving DecidableEq, Repr

/-- `defaultPreferences` of the ChatContext (part_024). -/
def defaultPreferences : ChatPreferences :=
  { response_style := .concise
    max_length := 300
    domain := "general"
    model_name := some "llama-3.1-8b-instant"
    allow_agentic := false }

/-- A `Partial<ChatPreferences>` value: a field that is `none` is absent
from the update object, so the JS spread keeps the existing field. -/
structure PrefsUpdate where
  response_style : Option ResponseStyle := none
  max_length : Option Nat := none
  domain : Option String := none
  model_name : Option (Option String) := none
  allow_agentic : Option Bool := none
deriving DecidableEq, Repr

/-- The JS spread `\x7b ...state.preferences, ...action.payload \x7d` of the
`UPDATE_PREFERENCES` reducer case: fields present in the update override,
all other fields are kept. -/
def mergePreferences (base : ChatPreferences) (p : PrefsUpdate) : ChatPreferences :=
  { response_style := p.response_style.getD base.response_style
    max_length := p.max_length.getD base.max_length
    domain := p.domain.getD base.domain
    model_name := p.model_name.getD base.model_name
    allow_agentic := p.allow_agentic.getD base.allow_agentic }

/-- `User` of api.types: `\x7b user_id, username \x7d`. -/
structure User where
  user_id : String
  username : String
deriving DecidableEq, Repr

/-- Upload status of a file entry in the ChatContext file list. -/
inductive FileStatus where
  | uploading
  | complete
  | error
deriving DecidableEq, Repr

/-- A file-list entry as built by `addFile` in part_024. -/
structure FileRef where
  id : String
  name : String
  ftype : String
  size : Nat
  status : FileStatus
deriving DecidableEq, Repr

/-- Persistent key-value store, one field per `STORAGE_KEYS` entry of
`src/unnamed/part_007` (token, user, session id, preferences, messages,
conversation-history archive).  A read of a missing key returns `none`. -/
structure StorageState where
  token : Option String
  user : Option User
  sessionId : Option String
  preferences : Option ChatPreferences
  messages : Option (List Message)
  conversationHistory : Option (List String)
deriving DecidableEq, Repr

/-- `Storage.clearAll` of part_007: removes every `STORAGE_KEYS` key. -/
def StorageState.clearAll : StorageState :=
  { token := none, user := none, sessionId := none,
    preferences := none, messages := none, conversationHistory := none }

/-- The tabs of the source panel (chat.types `ChatState.activeTab`). -/
inductive ActiveTab where
  | myfiles
  | web
  | youtube
  | preferences
deriving DecidableEq, Repr

/-- `ChatState` of the ChatContext in part_024 (the provider that also
holds `files`, `webSources` and `youtubeSources`). -/
structure ChatState where
  messages : List Message
  currentQuery : String
  isLoading : Bool
  activeTab : ActiveTab
  preferences : ChatPreferences
  sessionId : Option String
  files : List FileRef
  webSources : List String
  youtubeSources : List String
deriving DecidableEq, Repr

/-- `getInitialState` of the ChatContext: restore preferences and
messages from storage, defaulting when absent. -/
def getInitialState (st : StorageState) : ChatState :=
  { messages := st.messages.getD []
    currentQuery := ""
    isLoading := false
    activeTab := .myfiles
    preferences := st.preferences.getD defaultPreferences
    sessionId := none
    files := []
    webSources := []
    youtubeSources := [] }

/-- `ChatAction` of part_024. -/
inductive ChatAction where
  | setMessages (ms : List Message)
  | addMessage (m : Message)
  | updateMessage (id content : String)
  | setCurrentQuery (q : String)
  | setLoading (b : Bool)
  | setActiveTab (t : ActiveTab)
  | updatePreferences (p : PrefsUpdate)
  | setSessionId (o : Option String)
  | clearHistory
  | addFile (f : FileRef)
  | removeFile (id : String)
  | addWebSource (u : String)
  | removeWebSource (u : String)
  | addYouTubeSource (u : String)
  | removeYouTubeSource (u : String)
deriving DecidableEq, Repr

/-- World the conversation state machine acts on: the reducer state, the
persistent store it writes through, and the log of endpoints called. -/
structure ChatWorld where
  chat : ChatState
  storage : StorageState
  netLog : List String
deriving DecidableEq, Repr

/-- `chatReducer` of part_024, together with the `Storage` writes its
`ADD_MESSAGE`, `UPDATE_PREFERENCES` and `CLEAR_HISTORY` cases perform. -/
def chatDispatch (w : ChatWorld) (a : ChatAction) : ChatWorld :=
  match a with
  | .setMessages ms => { w with chat := { w.chat with messages := ms } }
  | .addMessage m =>
      let newMessages := w.chat.messages ++ [m]
      { w with chat := { w.chat with messages := newMessages }
               storage := { w.storage with messages := some newMessages } }
  | .updateMessage id content =>
      let ms := w.chat.messages.map (fun msg =>
        if msg.id = id then { msg with content := content } else msg)
      { w with chat := { w.chat with messages := ms } }
  | .setCurrentQuery q => { w with chat := { w.chat with currentQuery := q } }
  | .setLoading b => { w with chat := { w.chat with isLoading := b } }
  | .setActiveTab t => { w with chat := { w.chat with activeTab := t } }
  | .updatePreferences p =>
      let newPreferences := mergePreferences w.chat.preferences p
      { w with chat := { w.chat with preferences := newPreferences }
               storage := { w.storage with preferences := some newPreferences } }
  | .setSessionId o => { w with chat := { w.chat with sessionId := o } }
  | .clearHistory =>
      { w with chat := { w.chat with messages := [], currentQuery := "" }
               storage := { w.storage with messages := none } }
  | .addFile f => { w with chat := { w.chat with files := w.chat.files ++ [f] } }
  | .removeFile id =>
      { w with chat := { w.chat with files := w.chat.files.filter (fun f => f.id ≠ id) } }
  | .addWebSource u =>
      if u ∈ w.chat.webSources then w
      else { w with chat := { w.chat with webSources := w.chat.webSources ++ [u] } }
  | .removeWebSource u =>
      { w with chat := { w.chat with webSources := w.chat.webSources.filter (fun s => s ≠ u) } }
  | .addYouTubeSource u =>
      if u ∈ w.chat.youtubeSources then w
      else { w with chat := { w.chat with youtubeSources := w.chat.youtubeSources ++ [u] } }
  | .removeYouTubeSource u =>
      { w with chat := { w.chat with youtubeSources := w.chat.youtubeSources.filter (fun s => s ≠ u) } }

/-- Failure of an awaited backend call, as seen by a flow: an HTTP error
response (status plus optional server message) or no response at all. -/
inductive ReqError where
  | http (status : Nat) (message : Option String)
  | network
deriving DecidableEq, Repr

/-- `ChatResponse` of api.types (fields consumed by `sendMessage`). -/
structure ChatResponse where
  answer : String
  confidence : Rat
  warnings : List String
  citations : List String
  used_chunk_ids : List String
  retrieval_trace : String
  trace_id : String
  latency_ms : Nat
deriving DecidableEq, Repr

/-- `ChatRequest` of api.types, as built in `sendMessage`. -/
structure ChatRequest where
  query : String
  user_id : String
  session_id : String
  preferences : ChatPreferences
  conversation_history : List String
  allow_agentic : Bool
  model_name : Option String
  max_output_tokens : Option Nat
deriving DecidableEq, Repr

/-- JavaScript `String.prototype.trim`: strip whitespace from both ends
(executable model of the `query.trim()` guard). -/
def jsTrim (s : String) : String :=
  ⟨((s.data.dropWhile Char.isWhitespace).reverse.dropWhile Char.isWhitespace).reverse⟩

/-- The optimistic user message of `sendMessage` (id `user-$\x7bDate.now()\x7d`). -/
def mkUserMessage (query : String) (now : Nat) : Message :=
  { id := "user-" ++ toString now, role := .user, content := query,
    timestamp := now, metadata := none }

/-- The assistant message `sendMessage` appends on success, with the
response fields copied verbatim into the metadata. -/
def mkAssistantMessage (now : Nat) (r : ChatResponse) : Message :=
  { id := "assistant-" ++ toString now, role := .assistant, content := r.answer,
    timestamp := now,
    metadata := some
      { confidence := r.confidence
        warnings := r.warnings
        citations := r.citations
        used_chunk_ids := r.used_chunk_ids
        retrieval_trace := r.retrieval_trace
        trace_id := r.trace_id
        latency_ms := r.latency_ms } }

/-- The synthetic assistant message `sendMessage` appends in its catch
block; its content is a fixed text independent of the error. -/
def mkErrorMessage (now : Nat) : Message :=
  { id := "error-" ++ toString now, role := .assistant,
    content := "Sorry, I encountered an error processing your request. Please try again.",
    timestamp := now, metadata := none }

/-- `sendMessage` of the ChatContext (part_024).  `user?` and
`sessionId?` are the `useAuth` / `useSession` context values the closure
captures; `now` is the `Date.now()` value of this call; `outcome` is the
settled result of `ChatService.sendQuery`.  The guard, the dispatch
sequence, the catch substitution and the finally clause mirror the
source line by line. -/
def sendMessage (user? : Option User) (sessionId? : Option String) (query : String)
    (now : Nat) (outcome : Except ReqError ChatResponse) (w : ChatWorld) : ChatWorld :=
  match user?, sessionId? with
  | some user, some sessionId =>
    if jsTrim query = "" then w
    else
      let w1 := chatDispatch w (.setLoading true)
      let w2 := chatDispatch w1 (.setCurrentQuery "")
      let w3 := chatDispatch w2 (.addMessage (mkUserMessage query now))
      -- conversation history is read from the `state` captured at entry,
      -- i.e. the messages before this call appended anything
      let conversationHistory :=
        (w.chat.messages.filter (fun m => m.role = Role.assistant)).map (fun m => m.content)
      let _request : ChatRequest :=
        { query := query
          user_id := user.user_id
          session_id := sessionId
          preferences := w.chat.preferences
          conversation_history := conversationHistory
          allow_agentic := w.chat.preferences.allow_agentic
          model_name := w.chat.preferences.model_name
          max_output_tokens := none }
      let w4 := { w3 with netLog := w3.netLog ++ ["/v1/chat/query"] }
      let w5 := match outcome with
        | .ok response => chatDispatch w4 (.addMessage (mkAssistantMessage now response))
        | .error _ => chatDispatch w4 (.addMessage (mkErrorMessage now))
      chatDispatch w5 (.setLoading false)
  | _, _ => w

/-- A sequence of `sendMessage` calls, each given as (query, clock value,
backend response), every backend call succeeding. -/
def sendRun (u : User) (sid : String) (calls : List (String × Nat × ChatResponse))
    (w : ChatWorld) : ChatWorld :=
  match calls with
  | [] => w
  | (q, t, r) :: rest => sendRun u sid rest (sendMessage (some u) (some sid) q t (.ok r) w)

/-- The temporary id `addFile` generates at selection time
(`file-$\x7bDate.now()\x7d`). -/
def tempFileId (now : Nat) : String := "file-" ++ toString now

/-- `addFile` of the ChatContext (part_024): optimistic insert of an
`uploading` entry under a temporary id, then on the settled outcome of
`ChatService.ingestFile` either replace it by a `complete` entry under
the server-assigned document id, or (catch) replace it by an `error`
entry. -/
def addFile (user? : Option User) (name ftype : String) (size : Nat)
    (now : Nat) (outcome : Except ReqError String) (w : ChatWorld) : ChatWorld :=
  match user? with
  | none => w
  | some _user =>
    let newFile : FileRef :=
      { id := tempFileId now, name := name, ftype := ftype, size := size,
        status := .uploading }
    let w1 := chatDispatch w (.addFile newFile)
    let w2 := { w1 with netLog := w1.netLog ++ ["/ingest/file"] }
    match outcome with
    | .ok documentId =>
        let w3 := chatDispatch w2 (.removeFile (tempFileId now))
        chatDispatch w3 (.addFile { newFile with id := documentId, status := .complete })
    | .error _ =>
        let w3 := chatDispatch w2 (.removeFile (tempFileId now))
        chatDispatch w3 (.addFile { newFile with status := .error })

/-- `addWebSource` of the ChatContext (part_024): optimistic dispatch of
`ADD_WEB_SOURCE` (deduplicated in the reducer), then
`ChatService.ingestUrl`; the catch dispatches `REMOVE_WEB_SOURCE`. -/
def addWebSource (user? : Option User) (url : String)
    (outcome : Except ReqError Unit) (w : ChatWorld) : ChatWorld :=
  match user? with
  | none => w
  | some _user =>
    let w1 := chatDispatch w (.addWebSource url)
    let w2 := { w1 with netLog := w1.netLog ++ ["/ingest/url"] }
    match outcome with
    | .ok _ => w2
    | .error _ => chatDispatch w2 (.removeWebSource url)

/-- `addYouTubeSource` of the ChatContext (part_024). -/
def addYouTubeSource (user? : Option User) (url : String)
    (outcome : Except ReqError Unit) (w : ChatWorld) : ChatWorld :=
  match user? with
  | none => w
  | some _user =>
    let w1 := chatDispatch w (.addYouTubeSource url)
    let w2 := { w1 with netLog := w1.netLog ++ ["/ingest/url"] }
    match outcome with
    | .ok _ => w2
    | .error _ => chatDispatch w2 (.removeYouTubeSource url)

/-- `updatePreferences` of the ChatContext: a single dispatch, no
network call. -/
def updatePreferences (p : PrefsUpdate) (w : ChatWorld) : ChatWorld :=
  chatDispatch w (.updatePreferences p)

/-- `clearHistory` of the ChatContext. -/
def clearHistory (w : ChatWorld) : ChatWorld :=
  chatDispatch w .clearHistory

/-- `SessionState` of session.types / SessionContext.tsx. -/
structure SessionState where
  sessionId : Option String
  expiresAt : Option Nat
  isLoading : Bool
deriving DecidableEq, Repr

/-- `AuthState` of auth.types / AuthContext.tsx. -/
structure AuthState where
  user : Option User
  token : Option String
  isAuthenticated : Bool
  isLoading : Bool
deriving DecidableEq, Repr

/-- World for the auth and session providers: their reducer states, the
persistent store, and the endpoint log. -/
structure AppWorld where
  auth : AuthState
  session : SessionState
  storage : StorageState
  netLog : List String
deriving DecidableEq, Repr

/-- `SessionAction` of SessionContext.tsx. -/
inductive SessionAction where
  | createSessionStart
  | createSessionSuccess (sessionId : String) (expiresInSeconds : Nat) (now : Nat)
  | createSessionFailure
  | clearSession
  | setLoading (b : Bool)
deriving DecidableEq, Repr

/-- `sessionReducer` of SessionContext.tsx.  `CREATE_SESSION_SUCCESS`
computes `expiresAt = Date.now() + expires_in_seconds * 1000`. -/
def sessionReducer (s : SessionState) (a : SessionAction) : SessionState :=
  match a with
  | .createSessionStart => { s with isLoading := true }
  | .createSessionSuccess sid secs now =>
      { s with sessionId := some sid, expiresAt := some (now + secs * 1000),
               isLoading := false }
  | .createSessionFailure => { s with isLoading := false }
  | .clearSession => { s with sessionId := none, expiresAt := none, isLoading := false }
  | .setLoading b => { s with isLoading := b }

/-- `SessionResponse` of api.types (fields consumed by `createSession`). -/
structure SessionResponse where
  session_id : String
  expires_in_seconds : Nat
deriving DecidableEq, Repr

/-- `createSession` of SessionContext.tsx: dispatch `CREATE_SESSION_START`,
call `SessionService.createSession` (a POST to `/session/create`); on
success persist the session id and dispatch `CREATE_SESSION_SUCCESS`; on
failure dispatch `CREATE_SESSION_FAILURE` and rethrow the error. -/
def createSession (now : Nat) (outcome : Except ReqError SessionResponse)
    (w : AppWorld) : Except ReqError Unit × AppWorld :=
  let w1 := { w with session := sessionReducer w.session .createSessionStart }
  let w2 := { w1 with netLog := w1.netLog ++ ["/session/create"] }
  match outcome with
  | .ok r =>
      let w3 := { w2 with storage := { w2.storage with sessionId := some r.session_id } }
      (.ok (),
       { w3 with session :=
           sessionReducer w3.session (.createSessionSuccess r.session_id r.expires_in_seconds now) })
  | .error e =>
      (.error e, { w2 with session := sessionReducer w2.session .createSessionFailure })

/-- `clearSession` of SessionContext.tsx: `Storage.removeSessionId()`
then dispatch `CLEAR_SESSION`; no network call. -/
def clearSession (w : AppWorld) : AppWorld :=
  let w1 := { w with storage := { w.storage with sessionId := none } }
  { w1 with session := sessionReducer w1.session .clearSession }

/-- The fixed period of the expiry `setInterval` (60000 ms). -/
def checkIntervalMs : Nat := 60000

/-- The body of the expiry interval callback in SessionContext.tsx: when
an `expiresAt` is held and `now` has reached it, `clearSession()`. -/
def checkExpiration (now : Nat) (w : AppWorld) : AppWorld :=
  match w.session.expiresAt with
  | some e => if e ≤ now then clearSession w else w
  | none => w

/-- `logout` of AuthContext.tsx: `Storage.clearAll()` then dispatch
`LOGOUT`; synchronous, no backend call. -/
def logout (w : AppWorld) : AppWorld :=
  let w1 := { w with storage := StorageState.clearAll }
  { w1 with auth := { user := none, token := none, isAuthenticated := false, isLoading := false } }

/-- The user-visible notices the gateway raises (the toast calls of
api.ts, by kind). -/
inductive Notice where
  | sessionExpired
  | permissionDenied
  | validation (serverMessage : Option String)
  | serverError
  | unexpected
  | network
deriving DecidableEq, Repr

/-- One scripted result of a network attempt: a 2xx response body, a
non-2xx response, or no response received. -/
inductive NetOutcome where
  | ok (body : String)
  | httpErr (status : Nat) (message : Option String)
  | netErr
deriving DecidableEq, Repr

/-- What a caller of the axios client observes: the promise resolves
with a body, or rejects with the error (carrying the response status
when one was received). -/
inductive CallOutcome where
  | resolved (body : String)
  | rejected (status : Option Nat)
deriving DecidableEq, Repr

/-- World of the HTTP gateway client: the persistent store (token reads
and `clearAll`), the response cache, raised notices, forced navigations,
the log of attempted endpoints, and the remaining network script. -/
structure GatewayWorld where
  storage : StorageState
  cache : List (String × String)
  notices : List Notice
  redirects : List String
  netLog : List String
  script : List NetOutcome
deriving DecidableEq, Repr

/-- Issue one network attempt: consume the next scripted outcome (an
exhausted script behaves as a network failure) and log the endpoint. -/
def takeNet (url : String) (w : GatewayWorld) : NetOutcome × GatewayWorld :=
  match w.script with
  | [] => (.netErr, { w with netLog := w.netLog ++ [url] })
  | o :: rest => (o, { w with netLog := w.netLog ++ [url], script := rest })

/-- Append a user-visible notice (a toast call). -/
def pushNotice (n : Notice) (w : GatewayWorld) : GatewayWorld :=
  { w with notices := w.notices ++ [n] }

/-- The unrecoverable-401 path of api.ts: `Storage.clearAll()`,
`apiCache.clear()`, session-expired toast, navigate to `/login`. -/
def clearAndRedirect (w : GatewayWorld) : GatewayWorld :=
  { w with storage := StorageState.clearAll, cache := [],
           notices := w.notices ++ [Notice.sessionExpired],
           redirects := w.redirects ++ ["/login"] }

/-- One request through `this.client`, i.e. through both interceptors of
`setupInterceptors` in api.ts.  The fuel bounds the re-entrancy of the
response interceptor (its refresh call and retry go through the same
client).

The 401 arm mirrors the source exactly: the statement
`this.refreshToken().then(...)` is a detached promise chain — its `then`
branch retries the original request (reattaching the stored token) and
its rejection handler falls back to `clearAndRedirect` — but the
interceptor itself falls through to `return Promise.reject(error)`, so
the caller always receives the 401 rejection and the retry outcome is
discarded.  `refreshToken` returns false without a network call when no
token is stored, and otherwise reports whether `GET /auth/me`
resolved. -/
def clientRequest : Nat → String → GatewayWorld → CallOutcome × GatewayWorld
  | 0, _, w => (.rejected none, w)
  | fuel + 1, url, w =>
    let r := takeNet url w
    match r.1 with
    | .ok b => (.resolved b, r.2)
    | .netErr => (.rejected none, pushNotice .network r.2)
    | .httpErr status msg =>
      let w1 := r.2
      if status = 401 then
        let refresh :=
          match w1.storage.token with
          | none => (false, w1)
          | some _ =>
            match clientRequest fuel "/auth/me" w1 with
            | (.resolved _, wr) => (true, wr)
            | (.rejected _, wr) => (false, wr)
        let w3 :=
          if refresh.1 then
            match clientRequest fuel url refresh.2 with
            | (.resolved _, wr) => wr
            | (.rejected _, wr) => clearAndRedirect wr
          else clearAndRedirect refresh.2
        (.rejected (some 401), w3)
      else if status = 403 then (.rejected (some 403), pushNotice .permissionDenied w1)
      else if status = 400 then (.rejected (some 400), pushNotice (.validation msg) w1)
      else if status = 500 then (.rejected (some 500), pushNotice .serverError w1)
      else (.rejected (some status), pushNotice .unexpected w1)

/-- Modelled from the spec: api.ts imports `apiCache` from
`../utils/cache`, a file not among the provided sources.  Per §4.2 the
key is a pure, deterministic function of the path and the serialized
query parameters. -/
def generateKey (path : String) (params : List (String × String)) : String :=
  path ++ "?" ++ String.intercalate "&" (params.map (fun p => p.1 ++ "=" ++ p.2))

/-- Modelled from the spec: `apiCache.get`; the cache is an association
list, newest entry first, and a missing key reads as absent. -/
def cacheGet : List (String × String) → String → Option String
  | [], _ => none
  | (k, v) :: rest, key => if k = key then some v else cacheGet rest key

/-- Modelled from the spec: `apiCache.set(key, value)`. -/
def cacheSet (c : List (String × String)) (key v : String) : List (String × String) :=
  (key, v) :: c

/-- `ApiClient.get` of api.ts: compute the cache key; when `useCache`,
return a cached value if present; otherwise issue the request through
the client and, when `useCache` and it resolved, store the body. -/
def apiGet (fuel : Nat) (url : String) (params : List (String × String))
    (useCache : Bool) (w : GatewayWorld) : CallOutcome × GatewayWorld :=
  let cacheKey := generateKey url params
  match (if useCache then cacheGet w.cache cacheKey else none) with
  | some cached => (.resolved cached, w)
  | none =>
    match clientRequest fuel url w with
    | (.resolved b, w1) =>
        (.resolved b,
         if useCache then { w1 with cache := cacheSet w1.cache cacheKey b } else w1)
    | (.rejected s, w1) => (.rejected s, w1)

/-! ### Sample values used by concrete witnesses and counterexamples -/

/-- A concrete authenticated user. -/
def sampleUser : User := { user_id := "u1", username := "alice" }

/-- A concrete successful chat-query response. -/
def sampleResponse : ChatResponse :=
  { answer := "ans", confidence := 1, warnings := [], citations := [],
    used_chunk_ids := [], retrieval_trace := "", trace_id := "t1", latency_ms := 5 }

/-- A fresh chat world: initial state over an empty store, nothing logged. -/
def sampleChatWorld : ChatWorld :=
  { chat := getInitialState StorageState.clearAll
    storage := StorageState.clearAll
    netLog := [] }

/-! ### Helper lemmas -/

/-- A precondition-satisfying `sendMessage` whose backend call succeeds
appends exactly the user message and the assistant message. -/
theorem sendMessage_ok_messages (u : User) (sid : String) (q : String) (t : Nat)
    (r : ChatResponse) (w : ChatWorld) (h : ¬ jsTrim q = "") :
    (sendMessage (some u) (some sid) q t (.ok r) w).chat.messages =
      w.chat.messages ++ [mkUserMessage q t, mkAssistantMessage t r] := by
  simp [sendMessage, chatDispatch, h]

/-- Messages after a run of successful `sendMessage` calls: the prior
log followed by one (user, assistant) pair per call, in call order. -/
theorem sendRun_messages (u : User) (sid : String) :
    ∀ (calls : List (String × Nat × ChatResponse)) (w : ChatWorld),
      (∀ c ∈ calls, ¬ jsTrim (c.1 : String) = "") →
      (sendRun u sid calls w).chat.messages =
        w.chat.messages ++
          (calls.map (fun c => [mkUserMessage c.1 c.2.1, mkAssistantMessage c.2.1 c.2.2])).flatten
  | [], w, _ => by simp [sendRun]
  | (q, t, r) :: rest, w, h => by
    have hq : ¬ jsTrim q = "" := h (q, t, r) (by simp)
    have ih := sendRun_messages u sid rest (sendMessage (some u) (some sid) q t (.ok r) w)
      (fun c hc => h c (by simp [hc]))
    rw [sendRun, ih, sendMessage_ok_messages u sid q t r w hq]
    simp

/-- The interleaved pair list contributed by `n` calls has length `2n`. -/
theorem pairList_join_length (calls : List (String × Nat × ChatResponse)) :
    ((calls.map (fun c => [mkUserMessage c.1 c.2.1, mkAssistantMessage c.2.1 c.2.2])).flatten).length
      = 2 * calls.length := by
  induction calls with
  | nil => simp
  | cons c rest ih => simp [ih]; omega

/-! ### Claims -/

/-- C2: for every sequence of N `sendMessage` calls that each satisfy
the preconditions (non-empty query, authenticated user, session id
present) and whose backend calls all succeed, the message log grows by
exactly 2N entries, alternating one user message then one assistant
message per call, appended in call order. -/
theorem sendMessage_success_run_appends_two_per_call
    (u : User) (sid : String) (calls : List (String × Nat × ChatResponse)) (w : ChatWorld)
    (h : ∀ c ∈ calls, ¬ jsTrim (c.1 : String) = "") :
    (sendRun u sid calls w).chat.messages =
        w.chat.messages ++
          (calls.map (fun c => [mkUserMessage c.1 c.2.1, mkAssistantMessage c.2.1 c.2.2])).flatten ∧
    (sendRun u sid calls w).chat.messages.length =
        w.chat.messages.length + 2 * calls.length ∧
    (∀ c ∈ calls, (mkUserMessage c.1 c.2.1).role = Role.user ∧
        (mkAssistantMessage c.2.1 c.2.2).role = Role.assistant) := by
  refine ⟨sendRun_messages u sid calls w h, ?_, ?_⟩
  · rw [sendRun_messages u sid calls w h]
    simp only [List.length_append, pairList_join_length]
  · intro c _
    exact ⟨rfl, rfl⟩

/-- Witness for C2 at a concrete input: one successful call appends the
user/assistant pair to an initially empty log. -/
theorem sendMessage_success_run_appends_two_per_call_witness :
    (∀ c ∈ [("hello", 1, sampleResponse)], ¬ jsTrim (c.1 : String) = "") ∧
    ((sendRun sampleUser "sess-1" [("hello", 1, sampleResponse)] sampleChatWorld).chat.messages =
        sampleChatWorld.chat.messages ++
          (([("hello", 1, sampleResponse)]).map
            (fun c => [mkUserMessage c.1 c.2.1, mkAssistantMessage c.2.1 c.2.2])).flatten ∧
      (sendRun sampleUser "sess-1" [("hello", 1, sampleResponse)] sampleChatWorld).chat.messages.length =
        sampleChatWorld.chat.messages.length + 2 * ([("hello", 1, sampleResponse)]).length ∧
      (∀ c ∈ [("hello", 1, sampleResponse)], (mkUserMessage c.1 c.2.1).role = Role.user ∧
          (mkAssistantMessage c.2.1 c.2.2).role = Role.assistant)) :=
  ⟨by decide, sendMessage_success_run_appends_two_per_call sampleUser "sess-1"
      [("hello", 1, sampleResponse)] sampleChatWorld (by decide)⟩

/-- C3: a precondition-satisfying `sendMessage` whose backend call fails
(for any error kind) still grows the log by exactly 2 entries — the
user message plus one synthetic assistant message whose content is a
fixed generic failure text independent of the error kind — and
`isLoading` is false after the call settles. -/
theorem sendMessage_failure_appends_user_and_synthetic
    (u : User) (sid : String) (q : String) (t : Nat) (e : ReqError) (w : ChatWorld)
    (h : ¬ jsTrim q = "") :
    (sendMessage (some u) (some sid) q t (.error e) w).chat.messages =
        w.chat.messages ++ [mkUserMessage q t, mkErrorMessage t] ∧
    (mkUserMessage q t).role = Role.user ∧
    (mkErrorMessage t).role = Role.assistant ∧
    (mkErrorMessage t).content =
        "Sorry, I encountered an error processing your request. Please try again." ∧
    (sendMessage (some u) (some sid) q t (.error e) w).chat.isLoading = false := by
  refine ⟨?_, rfl, rfl, rfl, ?_⟩ <;> simp [sendMessage, chatDispatch, h]

/-- Witness for C3 at a concrete input: a network failure appends the
user message and the fixed synthetic assistant message. -/
theorem sendMessage_failure_appends_user_and_synthetic_witness :
    (¬ jsTrim ("hello" : String) = "") ∧
    ((sendMessage (some sampleUser) (some "sess-1") "hello" 1 (.error .network)
          sampleChatWorld).chat.messages =
        sampleChatWorld.chat.messages ++ [mkUserMessage "hello" 1, mkErrorMessage 1] ∧
      (mkUserMessage "hello" 1).role = Role.user ∧
      (mkErrorMessage 1).role = Role.assistant ∧
      (mkErrorMessage 1).content =
        "Sorry, I encountered an error processing your request. Please try again." ∧
      (sendMessage (some sampleUser) (some "sess-1") "hello" 1 (.error .network)
          sampleChatWorld).chat.isLoading = false) :=
  ⟨by decide, sendMessage_failure_appends_user_and_synthetic sampleUser "sess-1" "hello" 1
      .network sampleChatWorld (by decide)⟩

/-- C6: `updatePreferences(p)` makes the state preferences and the
persisted preference record equal to the previous record merged with
`p` — fields of `p` override, all other fields are unchanged — with no
network call. -/
theorem updatePreferences_merge_persist_no_network (p : PrefsUpdate) (w : ChatWorld) :
    (updatePreferences p w).chat.preferences = mergePreferences w.chat.preferences p ∧
    (updatePreferences p w).storage.preferences =
        some (mergePreferences w.chat.preferences p) ∧
    (updatePreferences p w).chat.preferences.response_style =
        p.response_style.getD w.chat.preferences.response_style ∧
    (updatePreferences p w).chat.preferences.max_length =
        p.max_length.getD w.chat.preferences.max_length ∧
    (updatePreferences p w).chat.preferences.domain =
        p.domain.getD w.chat.preferences.domain ∧
    (updatePreferences p w).chat.preferences.model_name =
        p.model_name.getD w.chat.preferences.model_name ∧
    (updatePreferences p w).chat.preferences.allow_agentic =
        p.allow_agentic.getD w.chat.preferences.allow_agentic ∧
    (updatePreferences p w).netLog = w.netLog ∧
    (updatePreferences p w).chat.messages = w.chat.messages := by
  simp [updatePreferences, chatDispatch, mergePreferences]

/-- The entry `addFile` inserts after a failed upload: the spread of the
optimistic entry with `status: error`, so it keeps the temporary id. -/
def failedUploadEntry (name ftype : String) (size now : Nat) : FileRef :=
  { id := tempFileId now, name := name, ftype := ftype, size := size, status := .error }

/-- C4 counterexample: after `addFile` with a failing upload, the file
list does contain an entry carrying the temporary id generated at
selection time (the error entry reuses it), contradicting the claim that
no entry with the temporary id remains. -/
theorem addFile_failure_temp_id_persists_counterexample :
    (addFile (some sampleUser) "notes.pdf" "application/pdf" 10 0 (.error .network)
        sampleChatWorld).chat.files =
      [{ id := "file-0", name := "notes.pdf", ftype := "application/pdf",
         size := 10, status := .error }] ∧
    ((addFile (some sampleUser) "notes.pdf" "application/pdf" 10 0 (.error .network)
        sampleChatWorld).chat.files.any (fun f => f.id == tempFileId 0)) = true := by
  decide

/-- C4 (amended): after `addFile` with a failing upload, the optimistic
entry is replaced by an entry that keeps the temporary id but is marked
status `error`; the file list equals the prior list without the
temporary id followed by that single error entry, so no entry with the
temporary id is left with status `uploading`. -/
theorem addFile_failure_replaces_with_error_entry
    (u : User) (name ftype : String) (size t : Nat) (e : ReqError) (w : ChatWorld) :
    (addFile (some u) name ftype size t (.error e) w).chat.files =
        (w.chat.files.filter (fun f => f.id ≠ tempFileId t)) ++
          [failedUploadEntry name ftype size t] ∧
    (failedUploadEntry name ftype size t).id = tempFileId t ∧
    (failedUploadEntry name ftype size t).status = FileStatus.error ∧
    ((addFile (some u) name ftype size t (.error e) w).chat.files.filter
        (fun f => f.id = tempFileId t ∧ f.status = FileStatus.uploading)) = [] := by
  refine ⟨?_, rfl, rfl, ?_⟩
  · simp [addFile, chatDispatch, failedUploadEntry, List.filter_append]
  · simp [addFile, chatDispatch, failedUploadEntry, List.filter_append, List.filter_filter]
    intro a _ h1 _
    exact h1

/-- C5 counterexample: two successive `addWebSource` calls with the same
URL, the first succeeding and the second failing, leave zero occurrences
of the URL (the rollback of the deduplicated second call removes the
entry the first call registered), so the list does not hold exactly one
occurrence and the second call was not a no-op. -/
theorem addWebSource_rollback_removes_existing_counterexample :
    (addWebSource (some sampleUser) "https://example.com" (.error .network)
        (addWebSource (some sampleUser) "https://example.com" (.ok ()) sampleChatWorld)).chat.webSources =
      [] ∧
    ((addWebSource (some sampleUser) "https://example.com" (.error .network)
        (addWebSource (some sampleUser) "https://example.com" (.ok ()) sampleChatWorld)).chat.webSources.count
      "https://example.com") = 0 := by
  decide

/-- The web-source list `addWebSource` leaves when its registration call
succeeds: dedup by exact string match, append otherwise. -/
theorem addWebSource_ok_webSources (u : User) (url : String) (w : ChatWorld) :
    (addWebSource (some u) url (.ok ()) w).chat.webSources =
      if url ∈ w.chat.webSources then w.chat.webSources
      else w.chat.webSources ++ [url] := by
  by_cases hmem : url ∈ w.chat.webSources <;>
    simp [addWebSource, chatDispatch, hmem]

/-- C5 (amended): when the registration calls succeed, calling
`addWebSource(u)` twice in succession leaves exactly one occurrence of
`u` (starting from a list holding at most one), and adding a URL already
present is a no-op on the list; the idempotency holds only for
successful calls, since a failing call rolls the entry back. -/
theorem addWebSource_success_dedup_idempotent (u : User) (url : String) (w : ChatWorld)
    (h : w.chat.webSources.count url ≤ 1) :
    ((addWebSource (some u) url (.ok ())
        (addWebSource (some u) url (.ok ()) w)).chat.webSources.count url = 1) ∧
    (url ∈ w.chat.webSources →
      (addWebSource (some u) url (.ok ()) w).chat.webSources = w.chat.webSources) := by
  constructor
  · by_cases hmem : url ∈ w.chat.webSources
    · have h1 : (addWebSource (some u) url (.ok ()) w).chat.webSources = w.chat.webSources := by
        simp [addWebSource_ok_webSources, hmem]
      have h2 : (addWebSource (some u) url (.ok ())
          (addWebSource (some u) url (.ok ()) w)).chat.webSources = w.chat.webSources := by
        simp [addWebSource_ok_webSources, h1, hmem]
      rw [h2]
      have hpos : 0 < w.chat.webSources.count url := List.count_pos_iff.mpr hmem
      omega
    · have h1 : (addWebSource (some u) url (.ok ()) w).chat.webSources =
          w.chat.webSources ++ [url] := by
        simp [addWebSource_ok_webSources, hmem]
      have hmem2 : url ∈ w.chat.webSources ++ [url] := by simp
      have h2 : (addWebSource (some u) url (.ok ())
          (addWebSource (some u) url (.ok ()) w)).chat.webSources =
          w.chat.webSources ++ [url] := by
        simp [addWebSource_ok_webSources, h1, hmem2]
      rw [h2]
      have hzero : w.chat.webSources.count url = 0 := List.count_eq_zero.mpr hmem
      simp [List.count_append, hzero]
  · intro hmem
    simp [addWebSource_ok_webSources, hmem]

/-- Witness for C5 (amended) at a concrete input: starting from an empty
list, two successful calls leave exactly one occurrence. -/
theorem addWebSource_success_dedup_idempotent_witness :
    (sampleChatWorld.chat.webSources.count "https://example.com" ≤ 1) ∧
    (((addWebSource (some sampleUser) "https://example.com" (.ok ())
        (addWebSource (some sampleUser) "https://example.com" (.ok ())
          sampleChatWorld)).chat.webSources.count "https://example.com" = 1) ∧
      ("https://example.com" ∈ sampleChatWorld.chat.webSources →
        (addWebSource (some sampleUser) "https://example.com" (.ok ())
          sampleChatWorld).chat.webSources = sampleChatWorld.chat.webSources)) :=
  ⟨by decide, addWebSource_success_dedup_idempotent sampleUser "https://example.com"
      sampleChatWorld (by decide)⟩

/-- A concrete app world holding an active session and an authenticated
user, as left by a successful login and session creation. -/
def sampleAppWorld : AppWorld :=
  { auth := { user := some sampleUser, token := some "tok-1",
              isAuthenticated := true, isLoading := false }
    session := { sessionId := some "old-sess", expiresAt := some 5000, isLoading := false }
    storage := { token := some "tok-1", user := some sampleUser,
                 sessionId := some "old-sess", preferences := none,
                 messages := none, conversationHistory := none }
    netLog := [] }

/-- C7: for every session state holding an `expires_at` in the past, the
periodic expiry check (fixed 60-unit interval) transitions the session
to cleared — session id and expiry removed from state and persistent
storage — within one check interval, issues no network call, and does
not by itself log the user out or clear credential/user state. -/
theorem session_expiry_cleared_within_one_interval (e t0 : Nat) (w : AppWorld)
    (h1 : w.session.expiresAt = some e) (h2 : e ≤ t0) :
    (checkExpiration (t0 + checkIntervalMs) w).session.sessionId = none ∧
    (checkExpiration (t0 + checkIntervalMs) w).session.expiresAt = none ∧
    (checkExpiration (t0 + checkIntervalMs) w).storage.sessionId = none ∧
    (checkExpiration (t0 + checkIntervalMs) w).netLog = w.netLog ∧
    (checkExpiration (t0 + checkIntervalMs) w).storage.token = w.storage.token ∧
    (checkExpiration (t0 + checkIntervalMs) w).storage.user = w.storage.user ∧
    (checkExpiration (t0 + checkIntervalMs) w).auth = w.auth := by
  have hle : e ≤ t0 + checkIntervalMs := le_trans h2 (Nat.le_add_right _ _)
  simp [checkExpiration, h1, hle, clearSession, sessionReducer]

/-- Witness for C7 at a concrete input: a session that expired at time
5000 is cleared by the check one interval after time 5000. -/
theorem session_expiry_cleared_within_one_interval_witness :
    (sampleAppWorld.session.expiresAt = some 5000 ∧ 5000 ≤ 5000) ∧
    ((checkExpiration (5000 + checkIntervalMs) sampleAppWorld).session.sessionId = none ∧
      (checkExpiration (5000 + checkIntervalMs) sampleAppWorld).session.expiresAt = none ∧
      (checkExpiration (5000 + checkIntervalMs) sampleAppWorld).storage.sessionId = none ∧
      (checkExpiration (5000 + checkIntervalMs) sampleAppWorld).netLog = sampleAppWorld.netLog ∧
      (checkExpiration (5000 + checkIntervalMs) sampleAppWorld).storage.token =
        sampleAppWorld.storage.token ∧
      (checkExpiration (5000 + checkIntervalMs) sampleAppWorld).storage.user =
        sampleAppWorld.storage.user ∧
      (checkExpiration (5000 + checkIntervalMs) sampleAppWorld).auth = sampleAppWorld.auth) :=
  ⟨⟨by decide, by decide⟩,
    session_expiry_cleared_within_one_interval 5000 5000 sampleAppWorld (by decide) (by decide)⟩

/-- C8 counterexample: a failing `createSession` from a state already
holding a session id (the `refreshSession` path) leaves that session id
in place — the manager does not end in the NoSession state. -/
theorem createSession_failure_retains_session_counterexample :
    (createSession 0 (.error .network) sampleAppWorld).2.session.sessionId =
        some "old-sess" ∧
    (createSession 0 (.error .network) sampleAppWorld).2.session.expiresAt = some 5000 := by
  decide

/-- C8 (amended): a failing `createSession` propagates the error to the
caller and resets `isLoading`, but leaves the previously held session id
and expiry unchanged in state and storage; it therefore ends with no
session id only when none was held before the call. -/
theorem createSession_failure_propagates_and_keeps_state
    (now : Nat) (e : ReqError) (w : AppWorld) :
    (createSession now (.error e) w).1 = Except.error e ∧
    (createSession now (.error e) w).2.session.sessionId = w.session.sessionId ∧
    (createSession now (.error e) w).2.session.expiresAt = w.session.expiresAt ∧
    (createSession now (.error e) w).2.session.isLoading = false ∧
    (createSession now (.error e) w).2.storage = w.storage ∧
    (createSession now (.error e) w).2.netLog = w.netLog ++ ["/session/create"] := by
  simp [createSession, sessionReducer]

/-- C10: `logout()` clears every key of the persistent key-value store —
credential, user profile, session id, chat preferences, message history
and the conversation-history archive — so a restart reads absent for all
of them and the chat preferences revert to the defaults. -/
theorem logout_clears_all_persistent_keys (w : AppWorld) :
    (logout w).storage.token = none ∧
    (logout w).storage.user = none ∧
    (logout w).storage.sessionId = none ∧
    (logout w).storage.preferences = none ∧
    (logout w).storage.messages = none ∧
    (logout w).storage.conversationHistory = none ∧
    (getInitialState (logout w).storage).preferences = defaultPreferences ∧
    (getInitialState (logout w).storage).messages = [] ∧
    (logout w).auth.user = none ∧
    (logout w).auth.token = none ∧
    (logout w).auth.isAuthenticated = false := by
  simp [logout, StorageState.clearAll, getInitialState]

/-- A gateway world with a stored token whose script answers the original
request with 401, the verification call with 2xx, and the retried
original request with a 2xx body. -/
def gateway401World : GatewayWorld :=
  { storage := { StorageState.clearAll with token := some "tok-1" }
    cache := []
    notices := []
    redirects := []
    netLog := []
    script := [.httpErr 401 none, .ok "me-ok", .ok "retry-body"] }

/-- C1: on a first response of 401 with a succeeding verification call,
the interceptor does retry the original request exactly once (three
network attempts: original, `/auth/me`, retry), but the refresh-and-retry
chain is detached, so the caller receives the original 401 rejection and
the retry body is discarded — the retry outcome is not returned to the
caller as the claim states. -/
theorem gateway_401_retry_outcome_discarded :
    (clientRequest 5 "/v1/chat/query" gateway401World).1 =
        CallOutcome.rejected (some 401) ∧
    (clientRequest 5 "/v1/chat/query" gateway401World).2.netLog =
        ["/v1/chat/query", "/auth/me", "/v1/chat/query"] ∧
    (clientRequest 5 "/v1/chat/query" gateway401World).1 ≠
        CallOutcome.resolved "retry-body" := by
  decide

/-- Cache lookup after `set` finds the stored value. -/
theorem cacheGet_cacheSet_self (c : List (String × String)) (key v : String) :
    cacheGet (cacheSet c key v) key = some v := by
  simp [cacheGet, cacheSet]

/-- C9: two cache-eligible GET requests with identical path and identical
query parameters issued back-to-back, with no intervening invalidation,
cost exactly one network call: the first (a cold miss whose network call
resolves) stores the body, and the second returns the cached body without
reaching the network. -/
theorem cache_short_circuit_single_network_call
    (url : String) (params : List (String × String)) (b : String)
    (rest : List NetOutcome) (w : GatewayWorld)
    (h1 : cacheGet w.cache (generateKey url params) = none)
    (h2 : w.script = NetOutcome.ok b :: rest) :
    (apiGet 1 url params true w).1 = CallOutcome.resolved b ∧
    (apiGet 1 url params true (apiGet 1 url params true w).2).1 =
        CallOutcome.resolved b ∧
    (apiGet 1 url params true (apiGet 1 url params true w).2).2.netLog =
        w.netLog ++ [url] ∧
    (apiGet 1 url params true (apiGet 1 url params true w).2).2.script = rest := by
  simp [apiGet, clientRequest, takeNet, h1, h2, cacheGet_cacheSet_self]

/-- A gateway world with an empty cache and a single scripted 2xx
response. -/
def gatewayCacheWorld : GatewayWorld :=
  { storage := StorageState.clearAll
    cache := []
    notices := []
    redirects := []
    netLog := []
    script := [.ok "body-1"] }

/-- Witness for C9 at a concrete input: two identical cached GETs on a
cold cache consume exactly the one scripted network response. -/
theorem cache_short_circuit_single_network_call_witness :
    (cacheGet gatewayCacheWorld.cache (generateKey "/api/docs" [("q", "1")]) = none ∧
      gatewayCacheWorld.script = NetOutcome.ok "body-1" :: []) ∧
    ((apiGet 1 "/api/docs" [("q", "1")] true gatewayCacheWorld).1 =
        CallOutcome.resolved "body-1" ∧
      (apiGet 1 "/api/docs" [("q", "1")] true
          (apiGet 1 "/api/docs" [("q", "1")] true gatewayCacheWorld).2).1 =
        CallOutcome.resolved "body-1" ∧
      (apiGet 1 "/api/docs" [("q", "1")] true
          (apiGet 1 "/api/docs" [("q", "1")] true gatewayCacheWorld).2).2.netLog =
        gatewayCacheWorld.netLog ++ ["/api/docs"] ∧
      (apiGet 1 "/api/docs" [("q", "1")] true
          (apiGet 1 "/api/docs" [("q", "1")] true gatewayCacheWorld).2).2.script = []) :=
  ⟨⟨by decide, by decide⟩,
    cache_short_circuit_single_network_call "/api/docs" [("q", "1")] "body-1" []
      gatewayCacheWorld (by decide) (by decide)⟩

end Intellisense
